import Mathlib

/-!
# Verification of the QuizGenAI generation-orchestration engine

Shallow embedding of the generation-orchestration logic of
`backend/api/views.py` (QuizGenAI): provider fallback with the
quota/billing keyword heuristic, the bounded retry helper, the
image rate limiter and its endpoints, the prompt cache, the
single-question regeneration loop, and the per-provider question
normalisation.

Conventions of the embedding:
* Timestamps are natural numbers (seconds); `timezone.now()` becomes an
  explicit `now : Nat` parameter and the start of the current UTC day an
  explicit `startOfDay : Nat` (the Django settings pin `TIME_ZONE = "UTC"`).
* Django querysets over `ImageGenerationLog` / `ImagePromptCache` rows
  become explicit lists of records threaded through the functions.
* External provider calls are parameters (`call`, `gen`, ...) returning
  `Except String α`: a raised exception becomes `.error msg` with
  `msg = str(e)`.
-/

namespace QuizGenAI

instance {ε α : Type} [DecidableEq ε] [DecidableEq α] : DecidableEq (Except ε α) := fun x y =>
  match x, y with
  | .ok a, .ok b =>
      if h : a = b then isTrue (by rw [h]) else isFalse (fun he => by cases he; exact h rfl)
  | .ok _, .error _ => isFalse (fun he => by cases he)
  | .error _, .ok _ => isFalse (fun he => by cases he)
  | .error e, .error f =>
      if h : e = f then isTrue (by rw [h]) else isFalse (fun he => by cases he; exact h rfl)

/-!
Character-level string primitives.  The Lean core `String` functions
(`trim`, `toLower`, `splitOn`, ...) are defined by well-founded recursion on
byte positions and do not reduce inside the kernel, so the python string
operations are modelled here by structurally recursive functions on the
character list of the string; each is a direct transcription of the python
operation named in its doc comment.
-/

/-- Python `s.lower()` (ASCII). -/
def lowerStr (s : String) : String := ⟨s.data.map Char.toLower⟩

/-- Python `s.upper()` (ASCII). -/
def upperStr (s : String) : String := ⟨s.data.map Char.toUpper⟩

/-- Python `s.strip()`: remove leading and trailing whitespace. -/
def trimStr (s : String) : String :=
  ⟨((s.data.dropWhile Char.isWhitespace).reverse.dropWhile Char.isWhitespace).reverse⟩

/-- Python `s[:n]`. -/
def takeStr (s : String) (n : Nat) : String := ⟨s.data.take n⟩

/-- Whether `pre` is a prefix of `l` (on characters). -/
def charsStartsWith : List Char → List Char → Bool
  | [], _ => true
  | _ :: _, [] => false
  | p :: ps, c :: cs => p == c && charsStartsWith ps cs

/-- Whether `needle` occurs as a contiguous run in `hay`. -/
def charsContains (hay needle : List Char) : Bool :=
  charsStartsWith needle hay ||
    match hay with
    | [] => false
    | _ :: t => charsContains t needle

/-- Python's substring test `needle in hay`. -/
def strContains (hay needle : String) : Bool :=
  charsContains hay.data needle.data

/-- Python `s.split()`: whitespace-separated runs, empties discarded.
`acc` holds the characters of the current word, reversed. -/
def splitWSAux : List Char → List Char → List String
  | [], acc => if acc.isEmpty then [] else [⟨acc.reverse⟩]
  | c :: cs, acc =>
      if c.isWhitespace then
        if acc.isEmpty then splitWSAux cs []
        else (⟨acc.reverse⟩ : String) :: splitWSAux cs []
      else splitWSAux cs (c :: acc)

def splitWS (s : String) : List String := splitWSAux s.data []

/-- Join words with single spaces (python `" ".join(words)`). -/
def joinSpace : List String → String
  | [] => ""
  | [w] => w
  | w :: ws => w ++ " " ++ joinSpace ws

/-- Python `s.split(sep)` for a single-character separator. -/
def splitOnCharAux (sep : Char) : List Char → List Char → List String
  | [], acc => [⟨acc.reverse⟩]
  | c :: cs, acc =>
      if c == sep then (⟨acc.reverse⟩ : String) :: splitOnCharAux sep cs []
      else splitOnCharAux sep cs (c :: acc)

def splitOnChar (sep : Char) (s : String) : List String :=
  splitOnCharAux sep s.data []

/-- The keyword table of `_is_no_credits_msg` in `api/views.py`. -/
def NO_CREDIT_KEYWORDS : List String :=
  ["quota", "over quota", "insufficient", "billing", "payment required",
   "credit", "out of credits", "429", "402", "rate limit"]

/-- Model of `_is_no_credits_msg(msg)`: the message, lowercased, contains one of the
quota/billing keywords. -/
def isNoCreditsMsg (msg : String) : Bool :=
  NO_CREDIT_KEYWORDS.any (fun kw => strContains (lowerStr msg) kw)

/-- Model of `_provider_order(preferred)`: sanitise the preferred provider (defaulting
to `"gemini"` when it is not one of the two allowed names) and return it
followed by the other provider. -/
def providerOrder (preferred : String) : List String :=
  let p := lowerStr (trimStr preferred)
  let p := if p == "gemini" || p == "openai" then p else "gemini"
  [p, if p == "gemini" then "openai" else "gemini"]

/-- Model of `_header_provider`: sanitise the `X-LLM-Provider` header value. -/
def headerProvider (h : String) : String :=
  let p := lowerStr (trimStr h)
  if p == "gemini" || p == "openai" then p else "gemini"

/-- The two terminal failures of `_generate_with_fallback` /
`generate_cover_image`: `RuntimeError("no_providers_available")` and
`RuntimeError(f"providers_failed: {errors}")` carrying the error log. -/
inductive GenFailure where
  | noProvidersAvailable
  | providersFailed (errors : List (String × String))
deriving DecidableEq

/-- Successful result of `_generate_with_fallback`: the items, the provider
that produced them, and whether a fallback provider was used (`idx > 0`). -/
structure GenSuccess (α : Type) where
  items : α
  provider : String
  fallbackUsed : Bool
deriving DecidableEq

/-- The provider loop of `_generate_with_fallback` (and, identically, of
`_regenerate_with_fallback`): try each provider of `order` in turn
(`call p` is the retried provider call, already wrapped in
`_call_with_retry`); on the first success return immediately; on failure
record `(provider, str(e))` in the error log and continue.  When the order
is exhausted: raise `no_providers_available` when any recorded error is
quota-classified, otherwise `providers_failed` with the error log. -/
def generateWithFallbackGo (call : String → Except String α) :
    List (String × String) → Nat → List String → Except GenFailure (GenSuccess α)
  | errs, _, [] =>
      if errs.any (fun e => isNoCreditsMsg e.2) then .error .noProvidersAvailable
      else .error (.providersFailed errs)
  | errs, idx, p :: rest =>
      match call p with
      | .ok items => .ok ⟨items, p, decide (0 < idx)⟩
      | .error msg => generateWithFallbackGo call (errs ++ [(p, msg)]) (idx + 1) rest

/-- Model of `_generate_with_fallback(topic, difficulty, types, counts, preferred)`,
abstracted over the per-provider generation call. -/
def generateWithFallback (call : String → Except String α) (preferred : String) :
    Except GenFailure (GenSuccess α) :=
  generateWithFallbackGo call [] 0 (providerOrder preferred)

/-- The count check at the tail of `generate_questions_with_gemini` and
`generate_questions_with_openai`: fewer questions than requested raises
`ValueError` (a provider failure); more than requested are truncated to the
requested count. -/
def checkQuestionCount (expected : Nat) (questions : List α) : Except String (List α) :=
  if questions.length < expected then
    .error ("Se esperaban " ++ toString expected ++ " preguntas y llegaron "
            ++ toString questions.length)
  else
    .ok (questions.take expected)

/-- Error of `_call_with_retry`: the re-raised last captured exception, or
`RuntimeError("unknown_retry_failure")` when no attempt ran. -/
inductive RetryErr (E : Type) where
  | last (e : E)
  | unknown
deriving DecidableEq

/-- Observable outcome of `_call_with_retry`: the result, the number of
invocations of `fn`, and the list of delays slept between attempts. -/
structure RetryOut (E α : Type) where
  result : Except (RetryErr E) α
  calls : Nat
  sleeps : List ℚ

/-- Loop body of `_call_with_retry`.  `fn n` is the outcome of the `n`-th
invocation of `fn` (0-based), `i` the index of the current attempt, `delay`
the next backoff delay, `slept` the delays slept so far and `remaining` the
attempts left.  On failure with attempts remaining it sleeps `delay`, doubles
it and retries; after the final attempt it re-raises the last captured
exception. -/
def callWithRetryGo (fn : Nat → Except E α) (i : Nat) (delay : ℚ) (slept : List ℚ)
    (remaining : Nat) : RetryOut E α :=
  match remaining with
  | 0 => ⟨.error .unknown, i, slept⟩
  | 1 =>
      match fn i with
      | .ok a => ⟨.ok a, i + 1, slept⟩
      | .error e => ⟨.error (.last e), i + 1, slept⟩
  | r + 2 =>
      match fn i with
      | .ok a => ⟨.ok a, i + 1, slept⟩
      | .error _ => callWithRetryGo fn (i + 1) (delay * 2) (slept ++ [delay]) (r + 1)

/-- Model of `_call_with_retry(fn, attempts, base_delay)`. -/
def callWithRetry (fn : Nat → Except E α) (attempts : Nat) (baseDelay : ℚ) : RetryOut E α :=
  callWithRetryGo fn 0 baseDelay [] attempts

/-- Provider loop of `generate_cover_image` (lines 1652-1671 of
`api/views.py`): each image provider is called **once** (the call is not
wrapped in `_call_with_retry`); on failure the error message is recorded and
the next provider is tried.  The second component records the providers
invoked, in order. -/
def generateCoverImageGo (call : String → Except String String) :
    List (String × String) → List String → List String →
    Except GenFailure (String × String) × List String
  | errs, invoked, [] =>
      (if errs.any (fun e => isNoCreditsMsg e.2) then .error .noProvidersAvailable
       else .error (.providersFailed errs), invoked)
  | errs, invoked, p :: rest =>
      match call p with
      | .ok path => (.ok (path, p), invoked ++ [p])
      | .error msg => generateCoverImageGo call (errs ++ [(p, msg)]) (invoked ++ [p]) rest

/-- Model of `generate_cover_image(prompt, preferred_provider, ..., return_provider=True)`:
an empty (stripped) prompt yields `None` without any provider call; otherwise
the providers are tried in order, each invoked directly (no retry wrapper). -/
def generateCoverImage (call : String → Except String String) (prompt : String)
    (preferred : String) : Except GenFailure (Option (String × String)) × List String :=
  if trimStr prompt == "" then (.ok none, [])
  else
    match generateCoverImageGo call [] [] (providerOrder preferred) with
    | (.ok pr, inv) => (.ok (some pr), inv)
    | (.error f, inv) => (.error f, inv)

/-- One row of `ImageGenerationLog` (the fields read or written by the
functions under study). -/
structure ImageLogRecord where
  user_identifier : String
  provider : String
  created_at : Nat
  reused_from_cache : Bool
  estimated_cost_usd : Option ℚ
deriving DecidableEq

/-- Result of `_image_rate_limit_status`. -/
structure RateStatus where
  provider : String
  used : Nat
  remaining : Int
deriving DecidableEq

def IMAGE_DAILY_LIMIT : Nat := 10

/-- The queryset filter of `_image_rate_limit_status`: rows of the identity,
created at or after the start of the current day, not reused from cache, and
(when a provider filter is given) with a case-insensitively equal provider. -/
def countsTowardLimit (uid : String) (provider : Option String) (startOfDay : Nat)
    (r : ImageLogRecord) : Bool :=
  r.user_identifier == uid && decide (startOfDay ≤ r.created_at) && !r.reused_from_cache &&
    (match provider with
     | none => true
     | some p => lowerStr r.provider == lowerStr p)

/-- Model of `_image_rate_limit_status(user_identifier, provider)` over an explicit
list of log rows. -/
def imageRateLimitStatus (logs : List ImageLogRecord) (uid : String)
    (provider : Option String) (startOfDay : Nat) : RateStatus :=
  let used := (logs.filter (countsTowardLimit uid provider startOfDay)).length
  { provider := lowerStr (provider.getD "all")
    used := used
    remaining := max 0 ((IMAGE_DAILY_LIMIT : Int) - used) }

/-- Model of `_normalize_prompt(prompt)`: strip, lowercase, and collapse whitespace
runs to single spaces. -/
def normalizePrompt (prompt : String) : String :=
  joinSpace (splitWS (lowerStr (trimStr prompt)))

/-- Model of `_prompt_hash(prompt)`: the sha256 hex digest of the normalized prompt.
The digest is modelled as the normalized prompt itself: sha256 is a fixed
deterministic function of its input, and every property proved below uses
only that equal normalized prompts give equal digests and that the digest is
a function of nothing else. -/
def promptHash (prompt : String) : String := normalizePrompt prompt

/-- One row of `ImagePromptCache` (unique on `(user_identifier, prompt_hash)`). -/
structure CacheEntry where
  user_identifier : String
  prompt : String
  prompt_hash : String
  image_path : String
  created_at : Nat
  expires_at : Nat
deriving DecidableEq

/-- The unique-key test of `ImagePromptCache.objects.update_or_create`. -/
def cacheKeyMatches (uid h : String) (e : CacheEntry) : Bool :=
  e.user_identifier == uid && e.prompt_hash == h

/-- Model of `order_by("-created_at").first()`: the first row of maximal `created_at`. -/
def newestEntry (l : List CacheEntry) : Option CacheEntry :=
  l.foldl (fun acc e =>
    match acc with
    | none => some e
    | some a => if a.created_at < e.created_at then some e else acc) none

/-- Model of `_get_cached_image(user_identifier, prompt)`: the newest non-expired row
for `(identity, prompt_hash)`, treated as a miss when the referenced artifact
file no longer exists under `MEDIA_ROOT` (`files` is the set of artifact
paths present on disk). -/
def getCachedImage (entries : List CacheEntry) (files : List String) (uid prompt : String)
    (now : Nat) : Option CacheEntry :=
  let h := promptHash prompt
  let candidates := entries.filter (fun e => cacheKeyMatches uid h e && decide (now ≤ e.expires_at))
  match newestEntry candidates with
  | none => none
  | some c => if files.contains c.image_path then some c else none

/-- The cache TTL of `_save_cache_entry`: 24 hours, in seconds. -/
def CACHE_TTL : Nat := 24 * 60 * 60

/-- Model of `_save_cache_entry(user, user_identifier, prompt, image_path)`:
`update_or_create` on the unique key `(user_identifier, prompt_hash)` with
defaults `{prompt, image_path, expires_at := now + 24h}`; `created_at` is
`auto_now_add` and therefore unchanged on update.  Returns the new row list
and the expiry. -/
def saveCacheEntry (entries : List CacheEntry) (uid prompt imagePath : String)
    (now : Nat) : List CacheEntry × Nat :=
  let h := promptHash prompt
  let expires := now + CACHE_TTL
  if entries.any (cacheKeyMatches uid h) then
    (entries.map (fun e =>
      if cacheKeyMatches uid h e then
        { e with prompt := prompt, image_path := imagePath, expires_at := expires }
      else e), expires)
  else
    (entries ++ [{ user_identifier := uid, prompt := prompt, prompt_hash := h,
                   image_path := imagePath, created_at := now, expires_at := expires }],
     expires)

/-- Database/filesystem state read and written by the image endpoints. -/
structure ImgState where
  logs : List ImageLogRecord
  cache : List CacheEntry
  files : List String
deriving DecidableEq

/-- The possible responses of the `gemini_generate_image` endpoint. -/
inductive ImgResponse where
  | badRequest
  | cachedImage (path : String) (remaining : Int)
  | freshImage (path : String) (provider : String) (remaining : Int)
  | rateLimitExceeded
  | generationError (msg : String)
deriving DecidableEq

/-- Outcome of one `gemini_generate_image` request: the response, the new
state, and whether `generate_cover_image` (and hence a provider) was
invoked. -/
structure ImgOut where
  response : ImgResponse
  state : ImgState
  providerInvoked : Bool
deriving DecidableEq

/-- The `gemini_generate_image` endpoint (lines 1673-1781 of `api/views.py`).
`gen` is the outcome `generate_cover_image` would produce if invoked
(`.ok (path, provider_used)` or the raised error).  Order of operations,
exactly as in the source: strip the prompt (empty → 400); look the prompt up
in the cache — a hit is logged as reuse (`provider = "cache"`, zero cost) and
served with no quota check; only on a miss is the rate limiter consulted
(`remaining ≤ 0` → 429 without a provider call); otherwise the provider is
invoked and, on success, the cache entry stored and a consuming usage row
logged.  (The optional `session_id` side effect on `GenerationSession` is
outside the state modelled here.) -/
def geminiGenerateImage (st : ImgState) (uid rawPrompt preferredHeader : String)
    (gen : Except String (String × String)) (now startOfDay : Nat) : ImgOut :=
  let prompt := trimStr rawPrompt
  let preferred := headerProvider preferredHeader
  if prompt == "" then ⟨.badRequest, st, false⟩
  else
    match getCachedImage st.cache st.files uid prompt now with
    | some cached =>
        let logs' := st.logs ++ [⟨uid, "cache", now, true, some 0⟩]
        let statusInfo := imageRateLimitStatus logs' uid (some preferred) startOfDay
        ⟨.cachedImage cached.image_path statusInfo.remaining, { st with logs := logs' }, false⟩
    | none =>
        let statusInfo := imageRateLimitStatus st.logs uid (some preferred) startOfDay
        if statusInfo.remaining ≤ 0 then ⟨.rateLimitExceeded, st, false⟩
        else
          match gen with
          | .error msg => ⟨.generationError msg, st, true⟩
          | .ok (path, prov) =>
              let cache' := (saveCacheEntry st.cache uid prompt path now).1
              let logs' := st.logs ++ [⟨uid, prov, now, false, none⟩]
              let statusInfo' := imageRateLimitStatus logs' uid (some prov) startOfDay
              ⟨.freshImage path prov statusInfo'.remaining,
               { st with cache := cache', logs := logs' }, true⟩

/-- Outcome of the cover-image step of the `sessions` endpoint. -/
structure SessionsCoverOut where
  logs : List ImageLogRecord
  providerInvoked : Bool
  rateInfo : Option RateStatus
deriving DecidableEq

/-- The cover-image step of the `sessions` endpoint (lines 1110-1163 of
`api/views.py`): after creating the session it invokes
`generate_cover_image` unconditionally — consulting neither
`_image_rate_limit_status` nor `_get_cached_image` first — and on success
logs a consuming usage row (`reused_from_cache = False`) and recomputes the
rate status for the response. -/
def sessionsCoverStep (logs : List ImageLogRecord) (uid preferredHeader : String)
    (gen : Except String (String × String)) (now startOfDay : Nat) : SessionsCoverOut :=
  let _preferred := headerProvider preferredHeader
  match gen with
  | .ok (_imgRel, providerUsed) =>
      let logs' := logs ++ [⟨uid, providerUsed, now, false, none⟩]
      ⟨logs', true, some (imageRateLimitStatus logs' uid (some providerUsed) startOfDay)⟩
  | .error _ => ⟨logs, true, none⟩

/-- Model of `_norm_for_cmp(s)`: lower-case, replace every run of non-alphanumeric
characters (python `[\W_]+`) by a single space, and strip.  `Char.isAlphanum`
is the ASCII word-character test; the python original is unicode-aware, a
difference immaterial to the properties proved here, which hold for every
candidate text. -/
def normForCmp (s : String) : String :=
  let replaced : String := ⟨(lowerStr s).data.map (fun c => if c.isAlphanum then c else ' ')⟩
  joinSpace (splitWS replaced)

/-- A question item as handled by the regeneration loop. -/
structure Question where
  qtype : String
  question : String
  options : Option (List String)
  answer : String
  explanation : String
deriving DecidableEq

/-- The deterministic type-specific safe variant substituted by
`regenerate_question` after the third rejected attempt. -/
def safeVariant (qtype topic difficulty : String) : Question :=
  if qtype == "mcq" then
    { qtype := "mcq"
      question := "[" ++ topic ++ "] Variante (" ++ difficulty ++
        ") — escenario alterno: elige la opción correcta."
      options := some ["A) Opción válida", "B) Distractor", "C) Distractor", "D) Distractor"]
      answer := "A"
      explanation := "Variante segura tras múltiples intentos." }
  else if qtype == "vf" then
    { qtype := "vf"
      question := "En " ++ topic ++ ", el tiempo de ejecución asintótico se expresa con O grande."
      options := none
      answer := "Verdadero"
      explanation := "Enunciado claro y objetivo." }
  else
    { qtype := "short"
      question := "[" ++ topic ++ "] Define brevemente el concepto central."
      options := none
      answer := "Definición concisa."
      explanation := "Variante segura." }

/-- The acceptance test of the regeneration loop: the moderation severity is
not `"severe"` and the normalized text is not already in the avoid-set.
`severe` abstracts `moderation_severity(review_question(q)) == "severe"`. -/
def regenAccept (severe : Question → Bool) (seen : List String) (q : Question) : Bool :=
  !severe q && !seen.contains (normForCmp q.question)

/-- Outcome of the `regenerate_question` retry loop. -/
structure RegenOut where
  q : Question
  provider : String
  didFallback : Bool
  attempts : Nat
  seen : List String
  forced : Bool
deriving DecidableEq

/-- The retry loop of `regenerate_question` (lines 1407-1448 of
`api/views.py`).  `gen n seen` is the `(new_q, provider_used, did_fallback)`
that `_regenerate_with_fallback` returns on the `n`-th attempt (1-based)
given the avoid-set `seen`; `severe` is the moderation classifier.  Each
rejected candidate's normalized text is appended to the avoid-set; after the
third rejected attempt the deterministic safe variant is substituted with
`provider_used = "local_safe"` and `did_fallback = True` (`forced` records
that this branch was taken).  `fuel` bounds the recursion; the entry point
supplies fuel 2, and the `attempts ≥ 3` test fires before the fuel could run
out, so the fuel-exhausted branch (made identical to the forced branch) is
unreachable. -/
def regenLoopGo (severe : Question → Bool)
    (gen : Nat → List String → Question × String × Bool)
    (qtype topic difficulty : String) (fuel attemptsDone : Nat)
    (seen : List String) : RegenOut :=
  let attempts := attemptsDone + 1
  let g := gen attempts seen
  if regenAccept severe seen g.1 then
    ⟨g.1, g.2.1, g.2.2, attempts, seen, false⟩
  else
    let seen' := seen ++ [normForCmp g.1.question]
    if 3 ≤ attempts then
      ⟨safeVariant qtype topic difficulty, "local_safe", true, attempts, seen', true⟩
    else
      match fuel with
      | 0 => ⟨safeVariant qtype topic difficulty, "local_safe", true, attempts, seen', true⟩
      | f + 1 => regenLoopGo severe gen qtype topic difficulty f attempts seen'

/-- The `regenerate_question` retry loop, started with `attempts = 0` and the
avoid-set built from the session history. -/
def regenLoop (severe : Question → Bool)
    (gen : Nat → List String → Question × String × Bool)
    (qtype topic difficulty : String) (seen0 : List String) : RegenOut :=
  regenLoopGo severe gen qtype topic difficulty 2 0 seen0

/-- The value found under `"options"` in the provider's raw JSON item:
a list, a string, or anything else (`.other`; a missing key is `data.get("options", [])`,
i.e. `.list []`). -/
inductive OptionsField where
  | list (xs : List String)
  | str (s : String)
  | other
deriving DecidableEq

/-- A raw single-question item as returned by a provider, before
normalisation.  `answer = none` models a missing `"answer"` key. -/
structure RawQuestion where
  qtype : String
  question : String
  options : OptionsField
  answer : Option String
deriving DecidableEq

/-- The type sanitisation at the head of both regeneration provider
functions: anything outside `{"mcq","vf","short"}` becomes `"mcq"`. -/
def sanitizeQType (qt : String) : String :=
  if qt == "mcq" || qt == "vf" || qt == "short" then qt else "mcq"

/-- Python `str.capitalize()`: first character upper-cased, the rest
lower-cased (ASCII). -/
def pyCapitalize (s : String) : String :=
  match s.toList with
  | [] => ""
  | c :: cs => String.mk (c.toUpper :: cs.map Char.toLower)

/-- Model of `str(data.get("answer","A")).strip().upper()[:1]`. -/
def mcqLetter (ans : Option String) : String :=
  takeStr (upperStr (trimStr (ans.getD "A"))) 1

def isMcqLetter (s : String) : Bool :=
  s == "A" || s == "B" || s == "C" || s == "D"

/-- The replacement options of the gemini normalisation branch. -/
def DEFAULT_MCQ_OPTIONS : List String :=
  ["A) Opción 1", "B) Opción 2", "C) Opción 3", "D) Opción 4"]

/-- The vf-answer test `str(data.get("answer","")).strip().capitalize() in
("Verdadero","Falso")` shared by both providers. -/
def vfAnswerValid (ans : Option String) : Bool :=
  pyCapitalize (trimStr (ans.getD "")) == "Verdadero" ||
    pyCapitalize (trimStr (ans.getD "")) == "Falso"

/-- The normalisation tail of `regenerate_question_with_gemini` (lines
640-657 of `api/views.py`): force the type; for mcq, a malformed or
wrong-length option list is replaced by the four defaults with answer `"A"`,
and otherwise the answer is replaced by `"A"` only when its stripped
upper-cased first character is not one of A-D (a valid answer is left as the
raw text); for vf, the answer is replaced by `"Verdadero"` only when its
stripped capitalisation is neither `"Verdadero"` nor `"Falso"` (a valid
answer is likewise left as the raw text). -/
def regenNormalizeGemini (qtype0 : String) (data : RawQuestion) : RawQuestion :=
  let qtype := sanitizeQType qtype0
  let d := { data with qtype := qtype }
  let d :=
    if qtype == "mcq" then
      match d.options with
      | .list opts =>
          if opts.length = 4 then
            if isMcqLetter (mcqLetter d.answer) then d
            else { d with answer := some "A" }
          else { d with options := .list DEFAULT_MCQ_OPTIONS, answer := some "A" }
      | _ => { d with options := .list DEFAULT_MCQ_OPTIONS, answer := some "A" }
    else d
  if qtype == "vf" then
    if vfAnswerValid d.answer then d else { d with answer := some "Verdadero" }
  else d

/-- The comma-splitting rescue of the openai branch for a string-valued
`"options"`. -/
def splitCommaOpts (s : String) : List String :=
  ((splitOnChar ',' s).map trimStr).filter (fun p => p != "")

/-- Model of the loop `while len(opts) < 4: opts.append(...)`, which appends
generic options (`"Opción " + str(len+1)`). -/
def padOptionsGo : Nat → List String → List String
  | 0, xs => xs
  | f + 1, xs =>
      if 4 ≤ xs.length then xs
      else padOptionsGo f (xs ++ ["Opción " ++ toString (xs.length + 1)])

/-- The while-loop appends until the length reaches 4, so it runs at most 4
iterations; fuel 4 makes the fuelled loop exact. -/
def padOptions (xs : List String) : List String := padOptionsGo 4 xs

/-- The normalisation tail of `regenerate_question_with_openai` (lines
827-866 of `api/views.py`): force the type; for mcq, rescue a string-valued
option field by comma-splitting, truncate to at most 4, pad with generic
options up to 4, and write back the normalised answer letter (defaulting to
`"A"`); for vf, identical to the gemini branch. -/
def regenNormalizeOpenai (qtype0 : String) (data : RawQuestion) : RawQuestion :=
  let qtype := sanitizeQType qtype0
  let d := { data with qtype := qtype }
  if qtype == "mcq" then
    let opts0 :=
      match d.options with
      | .list xs => xs
      | .str s => splitCommaOpts s
      | .other => []
    let opts1 := if 4 < opts0.length then opts0.take 4 else opts0
    let opts := padOptions opts1
    let d := { d with options := .list opts }
    let ans := mcqLetter d.answer
    if isMcqLetter ans then { d with answer := some ans }
    else { d with answer := some "A" }
  else if qtype == "vf" then
    if vfAnswerValid d.answer then d else { d with answer := some "Verdadero" }
  else d


/-!  ## Theorems -/

section Claims

/-- Concrete provider behaviour for the C1 counterexample: the preferred
provider fails with a quota message, the fallback with a plain network
error. -/
def c1MixedCall : String → Except String (List String) := fun p =>
  if p == "gemini" then .error "You exceeded your current quota"
  else .error "connection reset by peer"

/-- Concrete provider behaviour for the C1 witness: both providers fail with
plain, non-quota messages. -/
def c1PlainCall : String → Except String (List String) := fun p =>
  if p == "gemini" then .error "boom one" else .error "boom two"

def c1PlainMsg : String → String := fun p =>
  if p == "gemini" then "boom one" else "boom two"

/-- Behaviour of the fallback loop when every provider of the order fails:
the recorded error log is the providers paired with their messages, and the
terminal error is `no_providers_available` precisely when **some** recorded
message is quota-classified. -/
theorem generateWithFallbackGo_all_fail {α : Type} (call : String → Except String α)
    (msg : String → String) (order : List String) :
    ∀ (errs : List (String × String)) (idx : Nat),
      (∀ p ∈ order, call p = .error (msg p)) →
      generateWithFallbackGo call errs idx order =
        .error
          (if (errs ++ order.map (fun p => (p, msg p))).any (fun e => isNoCreditsMsg e.2) then
            .noProvidersAvailable
          else .providersFailed (errs ++ order.map (fun p => (p, msg p)))) := by
  induction order with
  | nil =>
      intro errs idx _
      simp only [generateWithFallbackGo, List.map_nil, List.append_nil]
      by_cases hc : (errs.any fun e => isNoCreditsMsg e.2) = true <;> simp [hc]
  | cons p rest ih =>
      intro errs idx h
      have hp : call p = .error (msg p) := h p (List.mem_cons_self _ _)
      have ih' := ih (errs ++ [(p, msg p)]) (idx + 1)
        (fun q hq => h q (List.mem_cons_of_mem _ hq))
      simp only [generateWithFallbackGo, hp, ih', List.map_cons, List.cons_append,
        List.append_assoc, List.singleton_append, List.nil_append]

/-- C1 (amended): when all providers in the order fail, the orchestrator
raises `no_providers_available` exactly when **at least one** recorded error
is quota-classified by `_is_no_credits_msg`; only when no recorded error is
quota-classified does it raise `providers_failed` carrying the error log. -/
theorem no_providers_available_iff_some_quota {α : Type} (call : String → Except String α)
    (preferred : String) (msg : String → String)
    (hfail : ∀ p ∈ providerOrder preferred, call p = .error (msg p)) :
    generateWithFallback call preferred =
      .error
        (if ((providerOrder preferred).map (fun p => (p, msg p))).any
              (fun e => isNoCreditsMsg e.2) then
          .noProvidersAvailable
        else .providersFailed ((providerOrder preferred).map (fun p => (p, msg p)))) := by
  have h := generateWithFallbackGo_all_fail call msg (providerOrder preferred) [] 0 hfail
  simpa [generateWithFallback] using h

/-- Witness for `no_providers_available_iff_some_quota` at a concrete input
where both providers fail with non-quota messages: the orchestrator raises
`providers_failed` with the full error log. -/
theorem no_providers_available_iff_some_quota_witness :
    (∀ p ∈ providerOrder "gemini", c1PlainCall p = .error (c1PlainMsg p)) ∧
    generateWithFallback c1PlainCall "gemini" =
      .error (.providersFailed [("gemini", "boom one"), ("openai", "boom two")]) := by
  refine ⟨by decide, ?_⟩
  rw [no_providers_available_iff_some_quota c1PlainCall "gemini" c1PlainMsg (by decide)]
  decide

/-- C1 counterexample: with one quota-classified error (gemini) and one
non-quota error (openai), the code raises `no_providers_available`, not
`providers_failed` — refuting "if at least one provider failed with a
non-quota error, it instead raises the generic providers-failed condition". -/
theorem c1_mixed_errors_counterexample :
    generateWithFallback c1MixedCall "gemini" = .error .noProvidersAvailable ∧
    isNoCreditsMsg "connection reset by peer" = false ∧
    isNoCreditsMsg "You exceeded your current quota" = true := by decide

/-- C2: the rate-limit status reports `used` = number of log rows of the
identity, within the current UTC day, not reused from cache, optionally
filtered by provider (case-insensitively); `remaining = max 0 (10 - used)`;
and a non-cached request arriving with `remaining = 0` is answered with the
rate-limit-exceeded condition, with no provider invocation and no state
change. -/
theorem rate_limit_status_and_gating :
    (∀ (logs : List ImageLogRecord) (uid : String) (provider : Option String) (startOfDay : Nat),
        (imageRateLimitStatus logs uid provider startOfDay).used =
          (logs.filter (fun r =>
            r.user_identifier == uid && decide (startOfDay ≤ r.created_at) &&
              !r.reused_from_cache &&
              (match provider with
               | none => true
               | some p => lowerStr r.provider == lowerStr p))).length ∧
        (imageRateLimitStatus logs uid provider startOfDay).remaining =
          max 0 ((IMAGE_DAILY_LIMIT : Int) -
            (imageRateLimitStatus logs uid provider startOfDay).used)) ∧
    (∀ (st : ImgState) (uid rawPrompt header : String) (gen : Except String (String × String))
        (now startOfDay : Nat),
        trimStr rawPrompt ≠ "" →
        getCachedImage st.cache st.files uid (trimStr rawPrompt) now = none →
        (imageRateLimitStatus st.logs uid (some (headerProvider header)) startOfDay).remaining = 0 →
        geminiGenerateImage st uid rawPrompt header gen now startOfDay =
          ⟨.rateLimitExceeded, st, false⟩) := by
  constructor
  · intro logs uid provider startOfDay
    exact ⟨rfl, rfl⟩
  · intro st uid rawPrompt header gen now startOfDay hne hmiss hrem
    have hne' : (trimStr rawPrompt == "") = false := by
      simpa using hne
    simp [geminiGenerateImage, hne', hmiss, hrem]

/-- Witness for `rate_limit_status_and_gating`: a concrete identity with 10
consuming usage rows today and an empty cache is refused without a provider
call. -/
theorem rate_limit_status_and_gating_witness :
    trimStr "cats mosaic" ≠ "" ∧
    getCachedImage ([] : List CacheEntry) [] "u1" (trimStr "cats mosaic") 5 = none ∧
    (imageRateLimitStatus (List.replicate 10 ⟨"u1", "gemini", 5, false, none⟩) "u1"
        (some (headerProvider "gemini")) 0).remaining = 0 ∧
    geminiGenerateImage ⟨List.replicate 10 ⟨"u1", "gemini", 5, false, none⟩, [], []⟩
        "u1" "cats mosaic" "gemini" (.ok ("generated/x.png", "gemini")) 5 0 =
      ⟨.rateLimitExceeded, ⟨List.replicate 10 ⟨"u1", "gemini", 5, false, none⟩, [], []⟩, false⟩ := by
  refine ⟨by decide, by decide, by decide, ?_⟩
  exact rate_limit_status_and_gating.2
    ⟨List.replicate 10 ⟨"u1", "gemini", 5, false, none⟩, [], []⟩
    "u1" "cats mosaic" "gemini" (.ok ("generated/x.png", "gemini")) 5 0
    (by decide) (by decide) (by decide)

/-- C8: appending a usage-log row with `reused_from_cache = true` (as done
on every cache hit, with zero estimated cost) leaves the rate-limit status
unchanged for every identity and provider filter. -/
theorem cache_reuse_does_not_consume_quota (logs : List ImageLogRecord) (rec : ImageLogRecord)
    (uid : String) (provider : Option String) (startOfDay : Nat)
    (h : rec.reused_from_cache = true) :
    imageRateLimitStatus (logs ++ [rec]) uid provider startOfDay =
      imageRateLimitStatus logs uid provider startOfDay := by
  simp [imageRateLimitStatus, List.filter_append, countsTowardLimit, h]

/-- Witness for `cache_reuse_does_not_consume_quota` at the concrete
cache-hit row the endpoint writes (`provider = "cache"`, zero cost). -/
theorem cache_reuse_does_not_consume_quota_witness :
    (⟨"u1", "cache", 5, true, some 0⟩ : ImageLogRecord).reused_from_cache = true ∧
    imageRateLimitStatus
        ([⟨"u1", "gemini", 5, false, none⟩] ++ [⟨"u1", "cache", 5, true, some 0⟩])
        "u1" (some "gemini") 0 =
      imageRateLimitStatus [⟨"u1", "gemini", 5, false, none⟩] "u1" (some "gemini") 0 :=
  ⟨rfl, cache_reuse_does_not_consume_quota _ _ _ _ _ rfl⟩

/-- C10: the `sessions` endpoint's cover-image step invokes the provider
for every outcome of `generate_cover_image` — it never consults the rate
limiter or the cache first — and, on success, appends a consuming usage row;
so an identity already at `used = 10` (the daily limit) still gets a
provider call and ends the request at `used = 11`. -/
theorem sessions_cover_bypasses_rate_limit (logs : List ImageLogRecord)
    (uid header path prov : String) (now startOfDay : Nat)
    (hday : startOfDay ≤ now)
    (hused : (imageRateLimitStatus logs uid (some prov) startOfDay).used = 10) :
    (∀ gen, (sessionsCoverStep logs uid header gen now startOfDay).providerInvoked = true) ∧
    (imageRateLimitStatus
        (sessionsCoverStep logs uid header (.ok (path, prov)) now startOfDay).logs
        uid (some prov) startOfDay).used = 11 := by
  constructor
  · intro gen
    match gen with
    | .ok (a, b) => rfl
    | .error e => rfl
  · have hl : (logs.filter (countsTowardLimit uid (some prov) startOfDay)).length = 10 := hused
    simp [sessionsCoverStep, imageRateLimitStatus, List.filter_append, countsTowardLimit,
      decide_eq_true hday, hl]

/-- Witness for `sessions_cover_bypasses_rate_limit`: an identity with 10
consuming rows today still gets a provider call from session creation and
ends at `used = 11`. -/
theorem sessions_cover_bypasses_rate_limit_witness :
    ((0 : Nat) ≤ 5 ∧
      (imageRateLimitStatus (List.replicate 10 ⟨"u1", "gemini", 5, false, none⟩) "u1"
        (some "gemini") 0).used = 10) ∧
    (imageRateLimitStatus
        (sessionsCoverStep (List.replicate 10 ⟨"u1", "gemini", 5, false, none⟩) "u1" "gemini"
          (.ok ("generated/x.png", "gemini")) 5 0).logs
        "u1" (some "gemini") 0).used = 11 :=
  ⟨⟨by decide, by decide⟩,
    (sessions_cover_bypasses_rate_limit (List.replicate 10 ⟨"u1", "gemini", 5, false, none⟩)
      "u1" "gemini" "generated/x.png" "gemini" 5 0 (by decide) (by decide)).2⟩

/-- A concrete batch supplier for the C4 witness: gemini answers 5 raw
items for a request of 3 (excess), openai answers 2 (shortfall). -/
def c4Raw : String → List RawQuestion := fun p =>
  if p == "gemini" then
    List.replicate 5 ⟨"mcq", "q", .list ["a", "b", "c", "d"], some "A"⟩
  else
    List.replicate 2 ⟨"mcq", "q", .list ["a", "b", "c", "d"], some "A"⟩

/-- C4: for a batch request of `expected` questions, a provider returning at
least `expected` items yields a success with **exactly** `expected` items
(the excess truncated) and no further provider is consulted, while a
provider returning fewer items fails with the count-mismatch error and the
orchestrator moves on to the next provider in order. -/
theorem batch_count_truncation_and_fallback (expected : Nat) (raw : String → List RawQuestion)
    (p : String) (rest : List String) (errs : List (String × String)) (idx : Nat) :
    (expected ≤ (raw p).length →
      generateWithFallbackGo (fun q => checkQuestionCount expected (raw q)) errs idx (p :: rest) =
          .ok ⟨(raw p).take expected, p, decide (0 < idx)⟩ ∧
        ((raw p).take expected).length = expected) ∧
    ((raw p).length < expected →
      generateWithFallbackGo (fun q => checkQuestionCount expected (raw q)) errs idx (p :: rest) =
        generateWithFallbackGo (fun q => checkQuestionCount expected (raw q))
          (errs ++ [(p, "Se esperaban " ++ toString expected ++ " preguntas y llegaron "
                        ++ toString (raw p).length)])
          (idx + 1) rest) := by
  constructor
  · intro h
    have hok : checkQuestionCount expected (raw p) = .ok ((raw p).take expected) := by
      simp [checkQuestionCount, Nat.not_lt.mpr h]
    constructor
    · simp [generateWithFallbackGo, hok]
    · simp [List.length_take, Nat.min_eq_left h]
  · intro h
    have herr : checkQuestionCount expected (raw p) =
        .error ("Se esperaban " ++ toString expected ++ " preguntas y llegaron "
                ++ toString (raw p).length) := by
      simp [checkQuestionCount, h]
    simp [generateWithFallbackGo, herr]

/-- Witness for `batch_count_truncation_and_fallback` at `expected = 3`:
gemini's 5 items are truncated to 3 and accepted with no fallback; openai's
2 items are a failure that steps to the next provider. -/
theorem batch_count_truncation_and_fallback_witness :
    (3 ≤ (c4Raw "gemini").length ∧
      generateWithFallbackGo (fun q => checkQuestionCount 3 (c4Raw q)) [] 0 ["gemini", "openai"] =
          .ok ⟨(c4Raw "gemini").take 3, "gemini", decide (0 < 0)⟩ ∧
        ((c4Raw "gemini").take 3).length = 3) ∧
    ((c4Raw "openai").length < 3 ∧
      generateWithFallbackGo (fun q => checkQuestionCount 3 (c4Raw q)) [] 1 ["openai"] =
        generateWithFallbackGo (fun q => checkQuestionCount 3 (c4Raw q))
          ([] ++ [("openai", "Se esperaban " ++ toString 3 ++ " preguntas y llegaron "
                    ++ toString (c4Raw "openai").length)])
          (1 + 1) []) :=
  ⟨⟨by decide,
    (batch_count_truncation_and_fallback 3 c4Raw "gemini" ["openai"] [] 0).1 (by decide)⟩,
   ⟨by decide,
    (batch_count_truncation_and_fallback 3 c4Raw "openai" [] [] 1).2 (by decide)⟩⟩

/-- First rejected candidate's normalized text. -/
def regenN1 (gen : Nat → List String → Question × String × Bool) (seen0 : List String) : String :=
  normForCmp (gen 1 seen0).1.question

/-- Second candidate's normalized text (attempt 2 receives the avoid-set
extended with the first rejected candidate). -/
def regenN2 (gen : Nat → List String → Question × String × Bool) (seen0 : List String) : String :=
  normForCmp (gen 2 (seen0 ++ [regenN1 gen seen0])).1.question

/-- Third candidate's normalized text (attempt 3 receives the avoid-set
extended with the first two rejected candidates). -/
def regenN3 (gen : Nat → List String → Question × String × Bool) (seen0 : List String) : String :=
  normForCmp (gen 3 (seen0 ++ [regenN1 gen seen0, regenN2 gen seen0])).1.question

/-- C3: the single-item regeneration loop performs at most 3 attempts, and
when all three candidates are rejected it returns the deterministic
type-specific safe variant with `provider_used = "local_safe"` and
`did_fallback = true` after exactly 3 attempts; the avoid-sets in the
rejection hypotheses are precisely what attempts 2 and 3 receive — each
rejected candidate's normalized text is added before the next attempt. -/
theorem regen_loop_bound_and_forced_fallback (severe : Question → Bool)
    (gen : Nat → List String → Question × String × Bool)
    (qtype topic difficulty : String) (seen0 : List String) :
    (regenLoop severe gen qtype topic difficulty seen0).attempts ≤ 3 ∧
    (regenAccept severe seen0 (gen 1 seen0).1 = false →
      regenAccept severe (seen0 ++ [regenN1 gen seen0])
        (gen 2 (seen0 ++ [regenN1 gen seen0])).1 = false →
      regenAccept severe (seen0 ++ [regenN1 gen seen0, regenN2 gen seen0])
        (gen 3 (seen0 ++ [regenN1 gen seen0, regenN2 gen seen0])).1 = false →
      regenLoop severe gen qtype topic difficulty seen0 =
        ⟨safeVariant qtype topic difficulty, "local_safe", true, 3,
          seen0 ++ [regenN1 gen seen0, regenN2 gen seen0, regenN3 gen seen0], true⟩) := by
  constructor
  · by_cases h1 : regenAccept severe seen0 (gen 1 seen0).1
    · simp [regenLoop, regenLoopGo, h1]
    · by_cases h2 : regenAccept severe (seen0 ++ [regenN1 gen seen0])
          (gen 2 (seen0 ++ [regenN1 gen seen0])).1
      · simp only [regenN1] at h2
        simp [regenLoop, regenLoopGo, h1, h2]
      · by_cases h3 : regenAccept severe (seen0 ++ [regenN1 gen seen0, regenN2 gen seen0])
            (gen 3 (seen0 ++ [regenN1 gen seen0, regenN2 gen seen0])).1
        · simp only [regenN1, regenN2] at h2 h3
          simp [regenLoop, regenLoopGo, h1, h2, h3]
        · simp only [regenN1, regenN2] at h2 h3
          simp [regenLoop, regenLoopGo, h1, h2, h3]
  · intro h1 h2 h3
    simp only [regenN1, regenN2, regenN3] at h2 h3 ⊢
    simp [regenLoop, regenLoopGo, h1, h2, h3]

/-- Always-severe classifier and a fixed candidate generator for the C3
witness: every candidate is rejected, so the loop must end after exactly 3
attempts in the forced safe variant. -/
def c3Severe : Question → Bool := fun _ => true

def c3Gen : Nat → List String → Question × String × Bool := fun n _ =>
  (⟨"mcq", "candidate " ++ toString n, some ["a", "b", "c", "d"], "A", "e"⟩, "gemini", false)

/-- Witness for `regen_loop_bound_and_forced_fallback`: with an
always-severe classifier every candidate is rejected and the loop returns
the forced safe mcq variant after exactly 3 attempts. -/
theorem regen_loop_bound_and_forced_fallback_witness :
    regenAccept c3Severe [] (c3Gen 1 []).1 = false ∧
    regenLoop c3Severe c3Gen "mcq" "grafos" "Media" [] =
      ⟨safeVariant "mcq" "grafos" "Media", "local_safe", true, 3,
        ["candidate 1", "candidate 2", "candidate 3"], true⟩ := by
  constructor
  · decide
  · have h := (regen_loop_bound_and_forced_fallback c3Severe c3Gen "mcq" "grafos" "Media" []).2
      (by decide) (by decide) (by decide)
    rw [h]
    decide

/-- The function `providerOrder` always yields one of the two concrete two-element
orders. -/
theorem providerOrder_cases (s : String) :
    providerOrder s = ["gemini", "openai"] ∨ providerOrder s = ["openai", "gemini"] := by
  unfold providerOrder
  by_cases hg : lowerStr (trimStr s) = "gemini"
  · left; simp [hg]
  · by_cases ho : lowerStr (trimStr s) = "openai"
    · right; simp [ho]
    · left
      have hg' : (lowerStr (trimStr s) == "gemini") = false := by
        simpa using hg
      have ho' : (lowerStr (trimStr s) == "openai") = false := by
        simpa using ho
      simp [hg', ho']

/-- On a non-empty prompt, the invoked-provider trace of
`generateCoverImage` is that of the underlying provider loop. -/
theorem generateCoverImage_snd (call : String → Except String String) (prompt preferred : String)
    (hne : (trimStr prompt == "") = false) :
    (generateCoverImage call prompt preferred).2 =
      (generateCoverImageGo call [] [] (providerOrder preferred)).2 := by
  unfold generateCoverImage
  rw [hne]
  rcases hgo : generateCoverImageGo call [] [] (providerOrder preferred) with ⟨res, inv⟩
  cases res <;> simp

/-- The provider loop over a two-element order invokes either just the first
provider or both, each once. -/
theorem generateCoverImageGo_invoked_two (call : String → Except String String)
    (a b : String) (errs : List (String × String)) :
    (generateCoverImageGo call errs [] [a, b]).2 = [a] ∨
    (generateCoverImageGo call errs [] [a, b]).2 = [a, b] := by
  simp only [generateCoverImageGo]
  cases call a with
  | ok path => left; rfl
  | error m =>
      simp only [generateCoverImageGo]
      cases call b with
      | ok path => right; rfl
      | error m2 => right; rfl

theorem count_pair_le_one (a b p : String) (h : a ≠ b) : List.count p [a, b] ≤ 1 := by
  rcases eq_or_ne a p with rfl | ha
  · have hb : b ≠ a := fun hh => h hh.symm
    simp [List.count_cons, hb]
  · rcases eq_or_ne b p with rfl | hb
    · simp [List.count_cons, ha]
    · simp [List.count_cons, ha, hb]

theorem count_singleton_le_one (a p : String) : List.count p [a] ≤ 1 := by
  rcases eq_or_ne a p with rfl | ha
  · simp
  · simp [List.count_cons, ha]

/-- C6 (amended): the cover-image pipeline does **not** wrap its provider
calls in the retry policy — `generate_cover_image` invokes each provider at
most once, falling back to the other provider on the first raised error —
whereas `_call_with_retry` itself (used for the question endpoints, with
`attempts = 3`) retries a failing call up to 3 invocations, sleeping
`base_delay * 2^attempt_index` between attempts and re-raising the last
captured exception unchanged after the final attempt. -/
theorem cover_image_no_retry_and_retry_contract :
    (∀ (call : String → Except String String) (prompt preferred p : String),
        List.count p (generateCoverImage call prompt preferred).2 ≤ 1) ∧
    (∀ (fn : Nat → Except String String) (base : ℚ) (e0 e1 e2 : String),
        fn 0 = .error e0 → fn 1 = .error e1 → fn 2 = .error e2 →
        callWithRetry fn 3 base =
          ⟨.error (.last e2), 3, [base * 2 ^ 0, base * 2 ^ 1]⟩) ∧
    (∀ (fn : Nat → Except String String) (base : ℚ) (e0 a : String),
        fn 0 = .error e0 → fn 1 = .ok a →
        callWithRetry fn 3 base = ⟨.ok a, 2, [base * 2 ^ 0]⟩) := by
  refine ⟨?_, ?_, ?_⟩
  · intro call prompt preferred p
    by_cases hp : (trimStr prompt == "") = true
    · unfold generateCoverImage
      rw [hp]
      simp
    · rw [generateCoverImage_snd call prompt preferred (by simpa using hp)]
      rcases providerOrder_cases preferred with h | h <;> rw [h] <;>
        · rcases generateCoverImageGo_invoked_two call _ _ [] with h2 | h2 <;> rw [h2]
          · exact count_singleton_le_one _ _
          · exact count_pair_le_one _ _ _ (by decide)
  · intro fn base e0 e1 e2 h0 h1 h2
    simp [callWithRetry, callWithRetryGo, h0, h1, h2]
  · intro fn base e0 a h0 h1
    simp [callWithRetry, callWithRetryGo, h0, h1]

/-- An image provider that fails on its first invocation and succeeds on the
second (for the C6 counterexample). -/
def c6FlakyGemini : Nat → Except String String := fun i =>
  if i == 0 then .error "transient network error" else .ok "generated/gem.png"

/-- The single-invocation view the cover pipeline has of the providers:
gemini yields its first-invocation outcome (an error), openai succeeds. -/
def c6Call : String → Except String String := fun p =>
  if p == "gemini" then c6FlakyGemini 0 else .ok "generated/oai.png"

/-- C6 counterexample: the cover-image pipeline invokes the raising (but
merely flaky) gemini provider exactly once and falls back to openai, while
the same provider wrapped in `_call_with_retry` (3 attempts) would have
succeeded on gemini at the second invocation — so cover-image provider
invocations are not wrapped in the retry policy. -/
theorem c6_no_retry_counterexample :
    generateCoverImage c6Call "recursion quiz" "gemini" =
      (.ok (some ("generated/oai.png", "openai")), ["gemini", "openai"]) ∧
    (callWithRetry c6FlakyGemini 3 1).result = .ok "generated/gem.png" ∧
    (callWithRetry c6FlakyGemini 3 1).calls = 2 := by
  refine ⟨by decide, by decide, by decide⟩

/-- Cache-hit behaviour of the `gemini_generate_image` endpoint: the hit is
served and logged as reuse, with no quota check and no provider call, for
**every** usage-log state (in particular for an exhausted identity). -/
theorem geminiGenerateImage_hit (st : ImgState) (uid rawPrompt header : String)
    (gen : Except String (String × String)) (now startOfDay : Nat) (e : CacheEntry)
    (hne : (trimStr rawPrompt == "") = false)
    (hhit : getCachedImage st.cache st.files uid (trimStr rawPrompt) now = some e) :
    geminiGenerateImage st uid rawPrompt header gen now startOfDay =
      ⟨.cachedImage e.image_path
          (imageRateLimitStatus (st.logs ++ [⟨uid, "cache", now, true, some 0⟩]) uid
            (some (headerProvider header)) startOfDay).remaining,
        ⟨st.logs ++ [⟨uid, "cache", now, true, some 0⟩], st.cache, st.files⟩, false⟩ := by
  simp [geminiGenerateImage, hne, hhit]

/-- Rate-limited behaviour of the endpoint on a cache miss with no remaining
quota: refused without a provider call or state change. -/
theorem geminiGenerateImage_limited (st : ImgState) (uid rawPrompt header : String)
    (gen : Except String (String × String)) (now startOfDay : Nat)
    (hne : (trimStr rawPrompt == "") = false)
    (hmiss : getCachedImage st.cache st.files uid (trimStr rawPrompt) now = none)
    (hrem : (imageRateLimitStatus st.logs uid (some (headerProvider header)) startOfDay).remaining
        = 0) :
    geminiGenerateImage st uid rawPrompt header gen now startOfDay =
      ⟨.rateLimitExceeded, st, false⟩ := by
  simp [geminiGenerateImage, hne, hmiss, hrem]

/-- C5 (amended): the `gemini_generate_image` pipeline consults the
generation cache **before** the rate limiter: a valid cache hit is served
(logged as reuse) without any quota check or provider invocation — even for
an identity whose daily quota is exhausted — and only on a cache miss is the
rate limiter consulted, the request being refused without a provider call
when `remaining = 0`. -/
theorem cover_endpoint_cache_before_rate_limit :
    (∀ (st : ImgState) (uid rawPrompt header : String) (gen : Except String (String × String))
        (now startOfDay : Nat) (e : CacheEntry),
        (trimStr rawPrompt == "") = false →
        getCachedImage st.cache st.files uid (trimStr rawPrompt) now = some e →
        geminiGenerateImage st uid rawPrompt header gen now startOfDay =
          ⟨.cachedImage e.image_path
              (imageRateLimitStatus (st.logs ++ [⟨uid, "cache", now, true, some 0⟩]) uid
                (some (headerProvider header)) startOfDay).remaining,
            ⟨st.logs ++ [⟨uid, "cache", now, true, some 0⟩], st.cache, st.files⟩, false⟩) ∧
    (∀ (st : ImgState) (uid rawPrompt header : String) (gen : Except String (String × String))
        (now startOfDay : Nat),
        (trimStr rawPrompt == "") = false →
        getCachedImage st.cache st.files uid (trimStr rawPrompt) now = none →
        (imageRateLimitStatus st.logs uid (some (headerProvider header)) startOfDay).remaining
            = 0 →
        geminiGenerateImage st uid rawPrompt header gen now startOfDay =
          ⟨.rateLimitExceeded, st, false⟩) :=
  ⟨fun st uid rawPrompt header gen now startOfDay e hne hhit =>
      geminiGenerateImage_hit st uid rawPrompt header gen now startOfDay e hne hhit,
   fun st uid rawPrompt header gen now startOfDay hne hmiss hrem =>
      geminiGenerateImage_limited st uid rawPrompt header gen now startOfDay hne hmiss hrem⟩

/-- The exhausted-identity-with-cache-hit state of the C5 counterexample:
10 consuming usage rows today, one valid cache entry whose artifact exists. -/
def c5Entry : CacheEntry :=
  ⟨"u1", "cats mosaic", "cats mosaic", "generated/x.png", 1, 100⟩

def c5State : ImgState :=
  ⟨List.replicate 10 ⟨"u1", "gemini", 50, false, none⟩, [c5Entry], ["generated/x.png"]⟩

/-- C5 counterexample: an identity with `remaining = 0` and a valid cache
entry is **served the cached image** (no provider invoked), not refused —
refuting the claim that the rate limiter is consulted before the cache and
that an exhausted identity is refused even on a cache hit. -/
theorem c5_cache_hit_despite_exhaustion_counterexample :
    (imageRateLimitStatus c5State.logs "u1" (some "gemini") 0).remaining = 0 ∧
    geminiGenerateImage c5State "u1" "cats mosaic" "gemini" (.error "never invoked") 50 0 =
      ⟨.cachedImage "generated/x.png" 0,
        ⟨c5State.logs ++ [⟨"u1", "cache", 50, true, some 0⟩], c5State.cache, c5State.files⟩,
        false⟩ ∧
    (geminiGenerateImage c5State "u1" "cats mosaic" "gemini"
        (.error "never invoked") 50 0).response ≠ .rateLimitExceeded := by
  refine ⟨by decide, by decide, by decide⟩

/-- Witness for `cover_endpoint_cache_before_rate_limit`: concrete hit and
miss instances with every hypothesis discharged. -/
theorem cover_endpoint_cache_before_rate_limit_witness :
    ((trimStr "cats mosaic" == "") = false ∧
      getCachedImage c5State.cache c5State.files "u1" (trimStr "cats mosaic") 50 = some c5Entry ∧
      geminiGenerateImage c5State "u1" "cats mosaic" "gemini" (.error "never invoked") 50 0 =
        ⟨.cachedImage c5Entry.image_path
            (imageRateLimitStatus (c5State.logs ++ [⟨"u1", "cache", 50, true, some 0⟩]) "u1"
              (some (headerProvider "gemini")) 0).remaining,
          ⟨c5State.logs ++ [⟨"u1", "cache", 50, true, some 0⟩], c5State.cache, c5State.files⟩,
          false⟩) ∧
    (getCachedImage c5State.cache c5State.files "u1" (trimStr "other prompt") 50 = none ∧
      geminiGenerateImage c5State "u1" "other prompt" "gemini" (.error "never invoked") 50 0 =
        ⟨.rateLimitExceeded, c5State, false⟩) :=
  ⟨⟨by decide, by decide,
    cover_endpoint_cache_before_rate_limit.1 c5State "u1" "cats mosaic" "gemini"
      (.error "never invoked") 50 0 c5Entry (by decide) (by decide)⟩,
   ⟨by decide,
    cover_endpoint_cache_before_rate_limit.2 c5State "u1" "other prompt" "gemini"
      (.error "never invoked") 50 0 (by decide) (by decide) (by decide)⟩⟩

/-- Witness for `cover_image_no_retry_and_retry_contract`: the three parts
at concrete inputs, hypotheses discharged. -/
theorem cover_image_no_retry_and_retry_contract_witness :
    List.count "gemini" (generateCoverImage c6Call "recursion quiz" "gemini").2 ≤ 1 ∧
    (c6FlakyGemini 0 = .error "transient network error" ∧ c6FlakyGemini 1 = .ok "generated/gem.png" ∧
      callWithRetry c6FlakyGemini 3 1 = ⟨.ok "generated/gem.png", 2, [1 * 2 ^ 0]⟩) ∧
    ((fun _ => (.error "e" : Except String String)) 0 = .error "e" ∧
      callWithRetry (fun _ => (.error "e" : Except String String)) 3 1 =
        ⟨.error (.last "e"), 3, [1 * 2 ^ 0, 1 * 2 ^ 1]⟩) :=
  ⟨cover_image_no_retry_and_retry_contract.1 c6Call "recursion quiz" "gemini" "gemini",
   ⟨by decide, by decide,
    cover_image_no_retry_and_retry_contract.2.2 c6FlakyGemini 1 "transient network error"
      "generated/gem.png" (by decide) (by decide)⟩,
   ⟨by decide,
    cover_image_no_retry_and_retry_contract.2.1 (fun _ => .error "e") 1 "e" "e" "e"
      (by decide) (by decide) (by decide)⟩⟩

theorem newestEntry_foldl_mem (l : List CacheEntry) :
    ∀ (acc : Option CacheEntry) (e : CacheEntry),
      l.foldl (fun acc e =>
        match acc with
        | none => some e
        | some a => if a.created_at < e.created_at then some e else acc) acc = some e →
      e ∈ l ∨ acc = some e := by
  induction l with
  | nil => intro acc e h; right; exact h
  | cons x xs ih =>
      intro acc e h
      rcases ih _ e h with hmem | hacc
      · exact Or.inl (List.mem_cons_of_mem _ hmem)
      · cases acc with
        | none =>
            left
            have hx : x = e := by simpa using hacc
            rw [← hx]; exact List.mem_cons_self _ _
        | some a =>
            by_cases hlt : a.created_at < x.created_at
            · left
              have hx : x = e := by simpa [hlt] using hacc
              rw [← hx]; exact List.mem_cons_self _ _
            · right
              simpa [hlt] using hacc

/-- The newest-first pick is an element of the list. -/
theorem newestEntry_mem (l : List CacheEntry) (e : CacheEntry) (h : newestEntry l = some e) :
    e ∈ l := by
  rcases newestEntry_foldl_mem l none e h with hm | hx
  · exact hm
  · exact Option.noConfusion hx

theorem newestEntry_foldl_isSome (l : List CacheEntry) :
    ∀ (a : CacheEntry),
      ∃ e, l.foldl (fun acc e =>
        match acc with
        | none => some e
        | some a => if a.created_at < e.created_at then some e else acc) (some a) = some e := by
  induction l with
  | nil => intro a; exact ⟨a, rfl⟩
  | cons x xs ih =>
      intro a
      by_cases hlt : a.created_at < x.created_at
      · simpa [List.foldl_cons, hlt] using ih x
      · simpa [List.foldl_cons, hlt] using ih a

/-- A non-empty candidate list always yields a newest entry. -/
theorem newestEntry_isSome (l : List CacheEntry) (hne : l ≠ []) :
    ∃ e, newestEntry l = some e := by
  match l, hne with
  | x :: xs, _ =>
      unfold newestEntry
      simpa [List.foldl_cons] using newestEntry_foldl_isSome xs x

/-- Shape of the row list after `_save_cache_entry`: some row carries the
key `(uid, prompt_hash)`; every row carrying the key stores the new artifact
path and the new expiry `now + 24h`; and no row carries an identity that is
neither `uid` nor an identity already present. -/
theorem saveCacheEntry_key_spec (entries : List CacheEntry) (uid prompt path : String)
    (now : Nat) :
    (∃ e ∈ (saveCacheEntry entries uid prompt path now).1,
        cacheKeyMatches uid (promptHash prompt) e = true) ∧
    (∀ e ∈ (saveCacheEntry entries uid prompt path now).1,
        cacheKeyMatches uid (promptHash prompt) e = true →
          e.image_path = path ∧ e.expires_at = now + CACHE_TTL) ∧
    (∀ e ∈ (saveCacheEntry entries uid prompt path now).1,
        e.user_identifier = uid ∨ ∃ e₀ ∈ entries, e.user_identifier = e₀.user_identifier) := by
  unfold saveCacheEntry
  by_cases hany : entries.any (cacheKeyMatches uid (promptHash prompt)) = true
  · simp only [hany, if_true]
    refine ⟨?_, ?_, ?_⟩
    · rcases List.any_eq_true.mp hany with ⟨x, hx, hmx⟩
      refine ⟨_, List.mem_map_of_mem _ hx, ?_⟩
      simp only [hmx, if_true]
      simpa [cacheKeyMatches] using hmx
    · intro e he hme
      rcases List.mem_map.mp he with ⟨x, hx, hfx⟩
      by_cases hmx : cacheKeyMatches uid (promptHash prompt) x = true
      · rw [← hfx]
        simp [hmx]
      · exfalso
        rw [← hfx] at hme
        simp only [hmx] at hme
        simp at hme
        exact hmx (by simpa [cacheKeyMatches] using hme)
    · intro e he
      rcases List.mem_map.mp he with ⟨x, hx, hfx⟩
      right
      refine ⟨x, hx, ?_⟩
      rw [← hfx]
      by_cases hmx : cacheKeyMatches uid (promptHash prompt) x = true <;> simp [hmx]
  · have hany' : entries.any (cacheKeyMatches uid (promptHash prompt)) = false := by
      simpa using hany
    simp only [hany', Bool.false_eq_true, if_false]
    refine ⟨?_, ?_, ?_⟩
    · refine ⟨_, List.mem_append_right _ (List.mem_singleton_self _), ?_⟩
      simp [cacheKeyMatches]
    · intro e he hme
      rcases List.mem_append.mp he with hin | hnew
      · exact absurd hme (by simpa using List.any_eq_false.mp hany' e hin)
      · rw [List.mem_singleton.mp hnew]
        exact ⟨rfl, rfl⟩
    · intro e he
      rcases List.mem_append.mp he with hin | hnew
      · exact Or.inr ⟨e, hin, rfl⟩
      · rw [List.mem_singleton.mp hnew]
        exact Or.inl rfl

/-- C7: after `store(uid, prompt1, path)` at time `now`, (a) a lookup with
any prompt of equal normalization, at any time within the 24-hour TTL and
with the artifact still present, returns an entry carrying the stored path
and expiry; (b) a lookup under a different identity (one owning no prior
cache rows) returns none; (c) a lookup after the TTL has passed is a miss;
(d) a lookup whose artifact file no longer exists is a miss. -/
theorem cache_round_trip (entries : List CacheEntry) (files : List String)
    (uid uid2 prompt1 prompt2 path : String) (now t : Nat)
    (hnorm : normalizePrompt prompt1 = normalizePrompt prompt2) :
    (t ≤ now + CACHE_TTL → files.contains path = true →
      ∃ e, getCachedImage (saveCacheEntry entries uid prompt1 path now).1 files uid prompt2 t
            = some e ∧
        e.image_path = path ∧ e.expires_at = now + CACHE_TTL) ∧
    ((∀ e ∈ entries, e.user_identifier ≠ uid2) → uid2 ≠ uid →
      getCachedImage (saveCacheEntry entries uid prompt1 path now).1 files uid2 prompt2 t
        = none) ∧
    (now + CACHE_TTL < t →
      getCachedImage (saveCacheEntry entries uid prompt1 path now).1 files uid prompt2 t
        = none) ∧
    (files.contains path = false →
      getCachedImage (saveCacheEntry entries uid prompt1 path now).1 files uid prompt2 t
        = none) := by
  have hh : promptHash prompt2 = promptHash prompt1 := hnorm.symm
  obtain ⟨⟨w, hw, hwk⟩, hkey, hid⟩ := saveCacheEntry_key_spec entries uid prompt1 path now
  refine ⟨?_, ?_, ?_, ?_⟩
  · -- (a) hit within TTL with artifact present
    intro ht hfile
    simp only [getCachedImage, hh]
    have hwexp : w.expires_at = now + CACHE_TTL := (hkey w hw hwk).2
    have hwin : w ∈ (saveCacheEntry entries uid prompt1 path now).1.filter
        (fun e => cacheKeyMatches uid (promptHash prompt1) e && decide (t ≤ e.expires_at)) := by
      refine List.mem_filter.mpr ⟨hw, ?_⟩
      simp [hwk, hwexp, ht]
    obtain ⟨c, hc⟩ := newestEntry_isSome _ (List.ne_nil_of_mem hwin)
    have hcmem := newestEntry_mem _ _ hc
    have hcf := List.mem_filter.mp hcmem
    have hck : cacheKeyMatches uid (promptHash prompt1) c = true := by
      have := hcf.2
      simp only [Bool.and_eq_true] at this
      exact this.1
    have hcprops := hkey c hcf.1 hck
    refine ⟨c, ?_, hcprops⟩
    have hfile' : path ∈ files := by simpa using hfile
    simp [hc, hcprops.1, hfile']
  · -- (b) different identity
    intro hnone hne
    simp only [getCachedImage]
    have hfil : (saveCacheEntry entries uid prompt1 path now).1.filter
        (fun e => cacheKeyMatches uid2 (promptHash prompt2) e && decide (t ≤ e.expires_at))
        = [] := by
      rw [List.filter_eq_nil_iff]
      intro e he
      rcases hid e he with hu | ⟨e₀, he₀, hu⟩
      · have hb : (e.user_identifier == uid2) = false := by
          rw [hu]
          exact beq_eq_false_iff_ne.mpr (Ne.symm hne)
        simp [cacheKeyMatches, hb]
      · have hb : (e.user_identifier == uid2) = false := by
          rw [hu]
          exact beq_eq_false_iff_ne.mpr (hnone e₀ he₀)
        simp [cacheKeyMatches, hb]
    simp [hfil, newestEntry]
  · -- (c) expired lookup
    intro ht
    simp only [getCachedImage, hh]
    have hfil : (saveCacheEntry entries uid prompt1 path now).1.filter
        (fun e => cacheKeyMatches uid (promptHash prompt1) e && decide (t ≤ e.expires_at))
        = [] := by
      rw [List.filter_eq_nil_iff]
      intro e he
      by_cases hk : cacheKeyMatches uid (promptHash prompt1) e = true
      · have hexp := (hkey e he hk).2
        have hd : decide (t ≤ e.expires_at) = false :=
          decide_eq_false (by omega)
        simp [hk, hd]
      · simp [hk]
    simp [hfil, newestEntry]
  · -- (d) artifact removed
    intro hfile
    simp only [getCachedImage, hh]
    rcases hne2 : newestEntry ((saveCacheEntry entries uid prompt1 path now).1.filter
        (fun e => cacheKeyMatches uid (promptHash prompt1) e && decide (t ≤ e.expires_at)))
      with _ | c
    · simp [hne2]
    · have hcmem := newestEntry_mem _ _ hne2
      have hcf := List.mem_filter.mp hcmem
      have hck : cacheKeyMatches uid (promptHash prompt1) c = true := by
        have := hcf.2
        simp only [Bool.and_eq_true] at this
        exact this.1
      have hcpath := (hkey c hcf.1 hck).1
      have hfile' : path ∉ files := by simpa using hfile
      simp [hne2, hcpath, hfile']

/-- Witness for `cache_round_trip`: concrete store followed by the four
lookups, every hypothesis discharged (P8's differing-case/whitespace prompts
included). -/
theorem cache_round_trip_witness :
    normalizePrompt "Quiz about recursion" = normalizePrompt "quiz about   RECURSION" ∧
    (∃ e, getCachedImage
          (saveCacheEntry [] "u1" "Quiz about recursion" "generated/x.png" 10).1
          ["generated/x.png"] "u1" "quiz about   RECURSION" 100 = some e ∧
        e.image_path = "generated/x.png" ∧ e.expires_at = 10 + CACHE_TTL) ∧
    getCachedImage (saveCacheEntry [] "u1" "Quiz about recursion" "generated/x.png" 10).1
        ["generated/x.png"] "u2" "quiz about   RECURSION" 100 = none ∧
    getCachedImage (saveCacheEntry [] "u1" "Quiz about recursion" "generated/x.png" 10).1
        ["generated/x.png"] "u1" "quiz about   RECURSION" 86500 = none ∧
    getCachedImage (saveCacheEntry [] "u1" "Quiz about recursion" "generated/x.png" 10).1
        [] "u1" "quiz about   RECURSION" 100 = none := by
  have h := cache_round_trip [] ["generated/x.png"] "u1" "u2"
    "Quiz about recursion" "quiz about   RECURSION" "generated/x.png" 10 100 (by decide)
  have hexp := cache_round_trip [] ["generated/x.png"] "u1" "u2"
    "Quiz about recursion" "quiz about   RECURSION" "generated/x.png" 10 86500 (by decide)
  have hfile := cache_round_trip [] [] "u1" "u2"
    "Quiz about recursion" "quiz about   RECURSION" "generated/x.png" 10 100 (by decide)
  exact ⟨by decide,
    h.1 (by decide) (by decide),
    h.2.1 (by intro e he; exact absurd he (List.not_mem_nil e)) (by decide),
    hexp.2.2.1 (by decide),
    hfile.2.2.2 (by decide)⟩

theorem padOptionsGo_length (fuel : Nat) :
    ∀ xs : List String, xs.length ≤ 4 → 4 ≤ xs.length + fuel →
      (padOptionsGo fuel xs).length = 4 := by
  induction fuel with
  | zero =>
      intro xs h1 h2
      simp only [padOptionsGo]
      omega
  | succ f ih =>
      intro xs h1 h2
      by_cases h4 : 4 ≤ xs.length
      · simp only [padOptionsGo, h4, if_true]
        omega
      · simp only [padOptionsGo, h4, if_false]
        apply ih
        · simp only [List.length_append, List.length_cons, List.length_nil]
          omega
        · simp only [List.length_append, List.length_cons, List.length_nil]
          omega

/-- The option-padding loop always produces exactly 4 options from at most
4. -/
theorem padOptions_length (xs : List String) (h : xs.length ≤ 4) :
    (padOptions xs).length = 4 :=
  padOptionsGo_length 4 xs h (by omega)

/-- The gemini mcq normalisation yields exactly 4 options, and an answer
whose stripped upper-cased first character is one of A-D (the raw answer
text itself is kept whenever that normalisation is already valid). -/
theorem regenNormalizeGemini_mcq (d : RawQuestion) :
    (∃ xs, (regenNormalizeGemini "mcq" d).options = .list xs ∧ xs.length = 4) ∧
    isMcqLetter (mcqLetter (regenNormalizeGemini "mcq" d).answer) = true := by
  have hA : isMcqLetter (mcqLetter (some "A")) = true := by decide
  have hD : DEFAULT_MCQ_OPTIONS.length = 4 := by decide
  obtain ⟨qt, qq, opts, ans⟩ := d
  rcases opts with xs | str | _
  · by_cases hlen : xs.length = 4
    · by_cases hval : isMcqLetter (mcqLetter ans) = true
      · refine ⟨⟨xs, ?_, hlen⟩, ?_⟩ <;>
          simp [regenNormalizeGemini, sanitizeQType, hlen, hval]
      · have hval' : isMcqLetter (mcqLetter ans) = false := by simpa using hval
        refine ⟨⟨xs, ?_, hlen⟩, ?_⟩ <;>
          simp [regenNormalizeGemini, sanitizeQType, hlen, hval', hA]
    · refine ⟨⟨DEFAULT_MCQ_OPTIONS, ?_, hD⟩, ?_⟩ <;>
        simp [regenNormalizeGemini, sanitizeQType, hlen, hA]
  · refine ⟨⟨DEFAULT_MCQ_OPTIONS, ?_, hD⟩, ?_⟩ <;>
      simp [regenNormalizeGemini, sanitizeQType, hA]
  · refine ⟨⟨DEFAULT_MCQ_OPTIONS, ?_, hD⟩, ?_⟩ <;>
      simp [regenNormalizeGemini, sanitizeQType, hA]

theorem openai_mcq_core (qt qq : String) (opts0 : List String) (ans : Option String) :
    (∃ xs, (regenNormalizeOpenai "mcq" ⟨qt, qq, .list opts0, ans⟩).options = .list xs ∧
      xs.length = 4) ∧
    (∃ s, (regenNormalizeOpenai "mcq" ⟨qt, qq, .list opts0, ans⟩).answer = some s ∧
      (s = "A" ∨ s = "B" ∨ s = "C" ∨ s = "D")) := by
  have hlen1 : (if 4 < opts0.length then opts0.take 4 else opts0).length ≤ 4 := by
    by_cases hgt : 4 < opts0.length
    · simp [hgt]
    · simp only [hgt, if_false]
      omega
  have hpad := padOptions_length _ hlen1
  by_cases hval : isMcqLetter (mcqLetter ans) = true
  · constructor
    · exact ⟨padOptions (if 4 < opts0.length then opts0.take 4 else opts0),
        by simp [regenNormalizeOpenai, sanitizeQType, hval], hpad⟩
    · refine ⟨mcqLetter ans, by simp [regenNormalizeOpenai, sanitizeQType, hval], ?_⟩
      have hv := hval
      simp only [isMcqLetter, Bool.or_eq_true, beq_iff_eq] at hv
      tauto
  · have hval' : isMcqLetter (mcqLetter ans) = false := by simpa using hval
    constructor
    · exact ⟨padOptions (if 4 < opts0.length then opts0.take 4 else opts0),
        by simp [regenNormalizeOpenai, sanitizeQType, hval'], hpad⟩
    · exact ⟨"A", by simp [regenNormalizeOpenai, sanitizeQType, hval'], Or.inl rfl⟩

theorem regenNormalizeOpenai_str_eq (qt qq s : String) (ans : Option String) :
    regenNormalizeOpenai "mcq" ⟨qt, qq, .str s, ans⟩ =
      regenNormalizeOpenai "mcq" ⟨qt, qq, .list (splitCommaOpts s), ans⟩ := rfl

theorem regenNormalizeOpenai_other_eq (qt qq : String) (ans : Option String) :
    regenNormalizeOpenai "mcq" ⟨qt, qq, .other, ans⟩ =
      regenNormalizeOpenai "mcq" ⟨qt, qq, .list [], ans⟩ := rfl

/-- The openai mcq normalisation yields exactly 4 options and writes back a
literal answer letter in A-D. -/
theorem regenNormalizeOpenai_mcq (d : RawQuestion) :
    (∃ xs, (regenNormalizeOpenai "mcq" d).options = .list xs ∧ xs.length = 4) ∧
    (∃ s, (regenNormalizeOpenai "mcq" d).answer = some s ∧
      (s = "A" ∨ s = "B" ∨ s = "C" ∨ s = "D")) := by
  obtain ⟨qt, qq, opts, ans⟩ := d
  rcases opts with xs | s | _
  · exact openai_mcq_core qt qq xs ans
  · rw [regenNormalizeOpenai_str_eq qt qq s ans]
    exact openai_mcq_core qt qq (splitCommaOpts s) ans
  · rw [regenNormalizeOpenai_other_eq qt qq ans]
    exact openai_mcq_core qt qq [] ans

/-- Both vf normalisations guarantee that the answer's stripped
capitalisation is `"Verdadero"` or `"Falso"` (the raw text is kept whenever
already valid). -/
theorem regenNormalize_vf (d : RawQuestion) :
    vfAnswerValid (regenNormalizeGemini "vf" d).answer = true ∧
    vfAnswerValid (regenNormalizeOpenai "vf" d).answer = true := by
  have hV : vfAnswerValid (some "Verdadero") = true := by decide
  obtain ⟨qt, qq, opts, ans⟩ := d
  by_cases hv : vfAnswerValid ans = true
  · constructor <;> simp [regenNormalizeGemini, regenNormalizeOpenai, sanitizeQType, hv]
  · have hv' : vfAnswerValid ans = false := by simpa using hv
    constructor <;>
      simp [regenNormalizeGemini, regenNormalizeOpenai, sanitizeQType, hv', hV]

/-- C9 (amended): for mcq both regeneration normalisations produce exactly
4 options; the openai variant stores a literal answer letter in
{A, B, C, D}, while the gemini variant only guarantees that the answer's
stripped upper-cased first character is in {A, B, C, D} (keeping the raw
text when valid); for vf both variants only guarantee that the answer's
stripped capitalisation is "Verdadero" or "Falso" (keeping the raw text
when valid, coercing to "Verdadero" otherwise). -/
theorem regen_normalization_invariant (d : RawQuestion) :
    (∃ xs, (regenNormalizeGemini "mcq" d).options = .list xs ∧ xs.length = 4) ∧
    isMcqLetter (mcqLetter (regenNormalizeGemini "mcq" d).answer) = true ∧
    (∃ xs, (regenNormalizeOpenai "mcq" d).options = .list xs ∧ xs.length = 4) ∧
    (∃ s, (regenNormalizeOpenai "mcq" d).answer = some s ∧
      (s = "A" ∨ s = "B" ∨ s = "C" ∨ s = "D")) ∧
    vfAnswerValid (regenNormalizeGemini "vf" d).answer = true ∧
    vfAnswerValid (regenNormalizeOpenai "vf" d).answer = true :=
  ⟨(regenNormalizeGemini_mcq d).1, (regenNormalizeGemini_mcq d).2,
   (regenNormalizeOpenai_mcq d).1, (regenNormalizeOpenai_mcq d).2,
   (regenNormalize_vf d).1, (regenNormalize_vf d).2⟩

/-- C9 counterexample: a vf answer `"falso"` passes the capitalisation test
and is stored unchanged by both providers — it is not literally
`"Verdadero"` or `"Falso"`; likewise a gemini mcq answer `"a"` passes the
first-letter test and is stored unchanged — it is not literally in
{A, B, C, D}. -/
theorem c9_raw_answer_counterexample :
    (regenNormalizeGemini "vf" ⟨"vf", "enunciado", .list [], some "falso"⟩).answer
        = some "falso" ∧
    (regenNormalizeOpenai "vf" ⟨"vf", "enunciado", .list [], some "falso"⟩).answer
        = some "falso" ∧
    ("falso" ≠ "Verdadero" ∧ "falso" ≠ "Falso") ∧
    (regenNormalizeGemini "mcq" ⟨"mcq", "q", .list ["w", "x", "y", "z"], some "a"⟩).answer
        = some "a" ∧
    "a" ∉ (["A", "B", "C", "D"] : List String) := by decide

end Claims

end QuizGenAI





